import Mathlib

/-!
Verification of the video-transcoding-api core: the Elastic Transcoder
adapter (provider/elastictranscoder) and the job submission / status /
callback-delivery workflows (service/transcode.go), shallowly embedded.

Go strings are modelled as lists of characters (`GoString`); Go's standard
library functions used by the code (`strings.TrimRight`, `filepath.Ext`,
`strings.Replace` with count 1, `strings.SplitN` with a single-character
separator and n = 2, `strconv.Atoi`, `strconv.Itoa`) are given faithful
executable models below.  Fallible Go code returns `Except GoError`;
`nil`-able pointers are `Option`s and dereferencing a `nil` pointer is an
explicit `Panic`.
-/

/-- Go strings, as lists of characters. -/
abbrev GoString := List Char

/-- Literal Go strings. -/
def goStr (s : String) : GoString := s.data

/-- Model of Go `strings.TrimRight s cutset`: removes trailing characters
that are members of `cutset` (a character *set*, not a suffix). -/
def goTrimRight (s cutset : GoString) : GoString :=
  (s.reverse.dropWhile (fun c => cutset.contains c)).reverse

/-- Model of Go `filepath.Ext`: the suffix of the path beginning at the
final dot in the final (slash-separated) element; empty if there is no dot.
The helper walks the reversed string, accumulating the characters seen so
far in original order. -/
def goExtLoop : GoString → GoString → GoString
  | [], _ => []
  | c :: rest, seen =>
    if c = '.' then c :: seen
    else if c = '/' then []
    else goExtLoop rest (c :: seen)

/-- Go `filepath.Ext`. -/
def goExt (s : GoString) : GoString := goExtLoop s.reverse []

/-- Model of Go `strings.Replace s pat "" 1`: removes the first occurrence
of `pat` from `s` (the only use in the source replaces with the empty
string). -/
def goReplaceFirstDrop : GoString → GoString → GoString
  | [], _ => []
  | c :: rest, pat =>
    if pat.isPrefixOf (c :: rest) then (c :: rest).drop pat.length
    else c :: goReplaceFirstDrop rest pat

/-- Model of Go `strings.SplitN s sep 2` for a one-character separator:
splits around the first instance of `sep`, yielding at most two parts.
`acc` holds the characters of the first part, reversed. -/
def goSplitN2Loop (sep : Char) : GoString → GoString → List GoString
  | [], acc => [acc.reverse]
  | c :: rest, acc =>
    if c = sep then [acc.reverse, rest] else goSplitN2Loop sep rest (c :: acc)

/-- Go `strings.SplitN s sep 2` (single-character separator). -/
def goSplitN2 (s : GoString) (sep : Char) : List GoString :=
  goSplitN2Loop sep s []

/-- True iff every character is an ASCII digit. -/
def goAllDigits (s : GoString) : Bool := s.all (fun c => c.isDigit)

/-- Decimal value of a digit string. -/
def goDigitsVal (s : GoString) : Nat :=
  s.foldl (fun acc c => 10 * acc + (c.toNat - 48)) 0

/-- Model of Go `strconv.Atoi`, as used by the source: the error is
discarded and the value (0 on a syntax error) kept.  Accepts an optional
sign followed by one or more digits.  (64-bit range clamping is ignored:
the inputs are preset bitrates.) -/
def goAtoi (s : GoString) : Int :=
  match s with
  | [] => 0
  | '+' :: rest =>
    if rest ≠ [] ∧ goAllDigits rest then (goDigitsVal rest : Int) else 0
  | '-' :: rest =>
    if rest ≠ [] ∧ goAllDigits rest then -(goDigitsVal rest : Int) else 0
  | _ => if goAllDigits s then (goDigitsVal s : Int) else 0

/-- Model of Go `strconv.Itoa`. -/
def goItoa (n : Int) : GoString := (toString n).data

/-!  ## The shared status vocabulary (provider package)

The provider package itself is not under src/ (only its test double is);
its `Status` enum is used throughout the adapter and service sources and
is described by the spec as a closed five-value enumeration. -/

/-- Modelled from the spec: the provider package's closed status enum
`Queued, Started, Finished, Failed, Canceled` (the package source is
absent from src/; the constants `provider.StatusQueued` etc. appear in
both source files). -/
inductive Status where
  | queued
  | started
  | finished
  | failed
  | canceled
  deriving DecidableEq, Repr

/-- Modelled from the spec: the error vocabulary of the absent provider
and db packages, together with plain Go error values.  `errorString`
models values built by `errors.New` / `fmt.Errorf` (the concrete
`*errorString` type); `invalidConfigError` models the distinguished
`provider.InvalidConfigError` type that the submission workflow detects
with a type assertion; `jobNotFoundError` models the distinguished
`provider.JobNotFoundError` type; `errPresetMapNotFound` models the
distinguished `PresetNotFound`/`PresetMapNotFound` sentinel condition
(the spec names the two interchangeably); `dbErrPresetNotFound` and
`dbErrJobNotFound` model the db package's store-miss sentinels. -/
inductive GoError where
  | errorString (msg : GoString)
  | invalidConfigError (msg : GoString)
  | jobNotFoundError (msg : GoString)
  | errPresetMapNotFound
  | dbErrPresetNotFound
  | dbErrJobNotFound
  deriving DecidableEq, Repr

/-- The Go type assertion `err.(provider.InvalidConfigError)`: succeeds
exactly when the dynamic type is `InvalidConfigError`. -/
def GoError.isInvalidConfigError : GoError → Bool
  | .invalidConfigError _ => true
  | _ => false

/-- The Go type assertion `err.(provider.JobNotFoundError)`. -/
def GoError.isJobNotFoundError : GoError → Bool
  | .jobNotFoundError _ => true
  | _ => false

/-!  ## Elastic Transcoder adapter: pure helpers -/

/-- The provider name constant `Name = "elastictranscoder"`. -/
def etName : GoString := goStr "elastictranscoder"

/-- `errAWSInvalidConfig`: built with `errors.New` in the source, hence a
plain `*errorString` value, not a `provider.InvalidConfigError`. -/
def errAWSInvalidConfig : GoError :=
  .errorString (goStr "invalid Elastic Transcoder config. Please define the configuration entries in the config file or environment variables")

/-- The `s3Pattern` regular expression `^s3://` reduced to its meaning:
a prefix test for the scheme. -/
def s3Scheme : GoString := goStr "s3://"

/-- `(*awsProvider).normalizeSource`: if the source matches `^s3://`,
drop the scheme, split once on `/`, and keep the last part; otherwise
return the source unchanged. -/
def normalizeSource (source : GoString) : GoString :=
  if s3Scheme.isPrefixOf source then
    let stripped := goReplaceFirstDrop source s3Scheme
    let parts := goSplitN2 stripped '/'
    parts.getLastD []
  else source

/-- `(*awsProvider).outputKey`: for adaptive outputs the file name is
passed through `strings.TrimRight(fileName, filepath.Ext(fileName))`
before being prefixed with `jobID + "/"`. -/
def outputKey (jobID fileName : GoString) (adaptive : Bool) : GoString :=
  jobID ++ ('/' :: (if adaptive then goTrimRight fileName (goExt fileName) else fileName))

/-- `(*awsProvider).statusMap`: backend status string to shared enum. -/
def statusMap (awsStatus : GoString) : Status :=
  if awsStatus = goStr "Submitted" then .queued
  else if awsStatus = goStr "Progressing" then .started
  else if awsStatus = goStr "Complete" then .finished
  else if awsStatus = goStr "Canceled" then .canceled
  else .failed

/-!  ## Elastic Transcoder adapter: preset creation -/

/-- Generic video parameters of `provider.Preset` (fields read from the
source; the provider package's struct declaration is not under src/). -/
structure PresetVideo where
  codec : GoString
  bitrate : GoString
  gopSize : GoString
  gopMode : GoString
  width : GoString
  height : GoString
  deriving DecidableEq, Repr

/-- Generic audio parameters of `provider.Preset`. -/
structure PresetAudio where
  codec : GoString
  bitrate : GoString
  deriving DecidableEq, Repr

/-- Generic `provider.Preset` as read by `CreatePreset` and the
`create*Preset` helpers. -/
structure Preset where
  name : GoString
  description : GoString
  container : GoString
  profile : GoString
  profileLevel : GoString
  video : PresetVideo
  audio : PresetAudio
  deriving DecidableEq, Repr

/-- Backend `elastictranscoder.VideoParameters` (fields set by the source). -/
structure VideoParameters where
  displayAspectRatio : GoString
  frameRate : GoString
  sizingPolicy : GoString
  paddingPolicy : GoString
  codec : GoString
  keyframesMaxDist : GoString
  codecProfile : GoString
  codecLevel : GoString
  maxReferenceFrames : GoString
  maxWidth : GoString
  maxHeight : GoString
  bitRate : GoString
  fixedGOP : Option GoString
  deriving DecidableEq, Repr

/-- Backend `elastictranscoder.AudioParameters` (fields set by the source). -/
structure AudioParameters where
  codec : GoString
  channels : GoString
  sampleRate : GoString
  bitRate : GoString
  deriving DecidableEq, Repr

/-- Backend `elastictranscoder.Thumbnails` (fields set by the source). -/
structure Thumbnails where
  paddingPolicy : GoString
  format : GoString
  interval : GoString
  sizingPolicy : GoString
  maxWidth : GoString
  maxHeight : GoString
  deriving DecidableEq, Repr

/-- Go's lowercasing of ASCII strings (`strings.ToLower`; the source only
lowercases profile names, which are ASCII). -/
def goToLower (s : GoString) : GoString := s.map Char.toLower

/-- `(*awsProvider).createVideoPreset`.  Integer division by 1000 uses
Go's truncating semantics (`Int.div`). -/
def createVideoPreset (preset : Preset) : VideoParameters :=
  { displayAspectRatio := goStr "auto"
    frameRate := goStr "auto"
    sizingPolicy := goStr "Fill"
    paddingPolicy := goStr "Pad"
    codec := if preset.video.codec = goStr "h264" then goStr "H.264" else preset.video.codec
    keyframesMaxDist := preset.video.gopSize
    codecProfile := goToLower preset.profile
    codecLevel := preset.profileLevel
    maxReferenceFrames := goStr "2"
    maxWidth := if preset.video.width ≠ [] then preset.video.width else goStr "auto"
    maxHeight := if preset.video.height ≠ [] then preset.video.height else goStr "auto"
    bitRate := goItoa ((goAtoi preset.video.bitrate).tdiv 1000)
    fixedGOP := if preset.video.gopMode = goStr "fixed" then some (goStr "true") else none }

/-- `(*awsProvider).createAudioPreset`. -/
def createAudioPreset (preset : Preset) : AudioParameters :=
  { codec := if preset.audio.codec = goStr "aac" then goStr "AAC" else preset.audio.codec
    channels := goStr "auto"
    sampleRate := goStr "auto"
    bitRate := goItoa ((goAtoi preset.audio.bitrate).tdiv 1000) }

/-- `(*awsProvider).createThumbsPreset`. -/
def createThumbsPreset (_preset : Preset) : Thumbnails :=
  { paddingPolicy := goStr "Pad"
    format := goStr "png"
    interval := goStr "1"
    sizingPolicy := goStr "Fill"
    maxWidth := goStr "auto"
    maxHeight := goStr "auto" }

/-- Backend `elastictranscoder.CreatePresetInput` as assembled by
`CreatePreset` before the backend call. -/
structure CreatePresetInput where
  name : GoString
  description : GoString
  container : GoString
  video : VideoParameters
  audio : AudioParameters
  thumbnails : Thumbnails
  deriving DecidableEq, Repr

/-- The pure part of `(*awsProvider).CreatePreset`: the request built and
sent to the backend (`p.c.CreatePreset` itself is an external call whose
result is merely forwarded). -/
def buildCreatePresetInput (preset : Preset) : CreatePresetInput :=
  { name := preset.name
    description := preset.description
    container :=
      if preset.container = goStr "m3u8" then goStr "ts" else preset.container
    video := createVideoPreset preset
    audio := createAudioPreset preset
    thumbnails := createThumbsPreset preset }

/-!  ## Elastic Transcoder adapter: job submission (`Transcode`) -/

/-- `db.Preset` as used by the adapter: carries the per-provider mapping
(`ProviderMapping`, a map from provider name to native preset id,
modelled as an association list looked up with `lookupMapping`). -/
structure DbPreset where
  providerMapping : List (GoString × GoString)
  deriving DecidableEq, Repr

/-- Go map indexing `m[k]` with its `, ok` form: the first binding wins. -/
def lookupMapping : List (GoString × GoString) → GoString → Option GoString
  | [], _ => none
  | (k, v) :: rest, key => if k = key then some v else lookupMapping rest key

/-- One desired output of a transcode profile (`provider.TranscodeOutput`):
a file name plus the resolved generic preset. -/
structure TranscodeOutput where
  fileName : GoString
  preset : DbPreset
  deriving DecidableEq, Repr

/-- `provider.StreamingParams`. -/
structure StreamingParams where
  segmentDuration : Nat
  protocol : GoString
  playlistFileName : GoString
  deriving DecidableEq, Repr

/-- `provider.TranscodeProfile`.  The service source (an older revision)
fills `sourceMedia`, `presets` and `streamingParams`; the adapter source
(a newer revision) additionally reads `outputs`.  Both fields are kept so
each side of the code can be embedded faithfully. -/
structure TranscodeProfile where
  sourceMedia : GoString
  presets : List DbPreset
  streamingParams : StreamingParams
  outputs : List TranscodeOutput
  deriving DecidableEq, Repr

/-- `db.Job` (fields read by the embedded sources). -/
structure DbJob where
  id : GoString
  providerName : GoString
  providerJobID : GoString
  statusCallbackURL : GoString
  statusCallbackInterval : Nat
  completionCallbackURL : GoString
  deriving DecidableEq, Repr

/-- `provider.JobStatus` (fields the embedded claims depend on; progress
is exact arithmetic standing in for the float64 of the source). -/
structure ProviderJobStatus where
  providerName : GoString
  providerJobID : GoString
  status : Status
  progress : ℚ
  deriving DecidableEq, Repr

/-- Backend `elastictranscoder.Preset` as returned by `ReadPreset`
(nil-able container, as the source checks). -/
structure ETPreset where
  container : Option GoString
  deriving DecidableEq, Repr

/-- Backend `elastictranscoder.ReadPresetOutput` (nil-able preset). -/
structure ReadPresetOutput where
  preset : Option ETPreset
  deriving DecidableEq, Repr

/-- Backend `elastictranscoder.CreateJobOutput` as assembled by
`Transcode`. -/
structure CreateJobOutput where
  presetId : GoString
  key : GoString
  segmentDuration : Option GoString
  deriving DecidableEq, Repr

/-- Backend `elastictranscoder.CreateJobPlaylist` as assembled by
`Transcode`. -/
structure CreateJobPlaylist where
  format : GoString
  name : GoString
  outputKeys : List GoString
  deriving DecidableEq, Repr

/-- Backend `elastictranscoder.CreateJobInput` as assembled by
`Transcode`. -/
structure CreateJobInput where
  pipelineId : GoString
  inputKey : GoString
  outputs : List CreateJobOutput
  playlists : List CreateJobPlaylist
  deriving DecidableEq, Repr

/-- The per-output loop of `(*awsProvider).Transcode` (lines 67-94):
for each output, look up the provider mapping (its absence aborts the
whole submission with `ErrPresetMapNotFound`), read the preset from the
backend, classify it as adaptive-streaming when its container is "ts",
and build the backend output entry.  Returns the built entries together
with the collected adaptive-streaming outputs, in order. -/
def buildOutputs (readPreset : GoString → Except GoError ReadPresetOutput)
    (jobID : GoString) (segmentDuration : Nat) :
    List TranscodeOutput → Except GoError (List CreateJobOutput × List TranscodeOutput)
  | [] => .ok ([], [])
  | o :: rest =>
    match lookupMapping o.preset.providerMapping etName with
    | none => .error .errPresetMapNotFound
    | some presetID =>
      match readPreset presetID with
      | .error e => .error e
      | .ok presetOutput =>
        match presetOutput.preset with
        | none => .error (.errorString (goStr "misconfigured preset: " ++ presetID))
        | some pr =>
          match pr.container with
          | none => .error (.errorString (goStr "misconfigured preset: " ++ presetID))
          | some container =>
            let isAdaptiveStreamingPreset := container = goStr "ts"
            let entry : CreateJobOutput :=
              { presetId := presetID
                key := outputKey jobID o.fileName isAdaptiveStreamingPreset
                segmentDuration :=
                  if isAdaptiveStreamingPreset then some (goItoa (segmentDuration : Int))
                  else none }
            match buildOutputs readPreset jobID segmentDuration rest with
            | .error e => .error e
            | .ok (entries, adaptives) =>
              .ok (entry :: entries,
                   (if isAdaptiveStreamingPreset then o :: adaptives else adaptives))

/-- The request-construction part of `(*awsProvider).Transcode` (lines
59-110): the `CreateJobInput` handed to the backend, including the HLSv3
playlist referencing every adaptive-streaming output when at least one
exists. -/
def awsCreateJobInput (readPreset : GoString → Except GoError ReadPresetOutput)
    (pipelineID : GoString) (job : DbJob) (profile : TranscodeProfile) :
    Except GoError CreateJobInput :=
  let source := normalizeSource profile.sourceMedia
  match buildOutputs readPreset job.id profile.streamingParams.segmentDuration profile.outputs with
  | .error e => .error e
  | .ok (entries, adaptiveStreamingOutputs) =>
    let playlists :=
      if adaptiveStreamingOutputs.length > 0 then
        let playlistFileName := profile.streamingParams.playlistFileName
        let playlistFileName := goTrimRight playlistFileName (goExt playlistFileName)
        [{ format := goStr "HLSv3"
           name := job.id ++ ('/' :: playlistFileName)
           outputKeys :=
             adaptiveStreamingOutputs.map (fun o => outputKey job.id o.fileName true)
           : CreateJobPlaylist }]
      else []
    .ok { pipelineId := pipelineID
          inputKey := source
          outputs := entries
          playlists := playlists }

/-- `(*awsProvider).Transcode`: build the request, submit it via the
backend client (`createJob`, external), and report the fresh job as
`Queued`. -/
def awsTranscode (readPreset : GoString → Except GoError ReadPresetOutput)
    (createJob : CreateJobInput → Except GoError GoString)
    (pipelineID : GoString) (job : DbJob) (profile : TranscodeProfile) :
    Except GoError ProviderJobStatus :=
  match awsCreateJobInput readPreset pipelineID job profile with
  | .error e => .error e
  | .ok params =>
    match createJob params with
    | .error e => .error e
    | .ok respJobID =>
      .ok { providerName := etName
            providerJobID := respJobID
            status := .queued
            progress := 0 }

/-!  ## Elastic Transcoder adapter: job status (`JobStatus`) -/

/-- One backend job output as returned by `ReadJob` (the fields the
status computation reads). -/
structure ETJobOutput where
  status : GoString
  deriving DecidableEq, Repr

/-- The backend job as returned by `ReadJob` (the fields the status and
progress computation reads). -/
structure ETReadJob where
  status : GoString
  outputs : List ETJobOutput
  deriving DecidableEq, Repr

/-- The accumulation step of the `completedJobs` loop in
`(*awsProvider).JobStatus` (lines 252-259): an output counts once its
individual mapped status is Finished, Canceled or Failed. -/
def completedStep (acc : ℚ) (output : ETJobOutput) : ℚ :=
  match statusMap output.status with
  | .finished => acc + 1
  | .canceled => acc + 1
  | .failed => acc + 1
  | _ => acc

/-- The status/progress core of `(*awsProvider).JobStatus` (lines
249-271): overall status is the mapped job-level backend status; progress
is completed outputs over total outputs times 100. -/
def jobStatusResult (j : ETReadJob) : Status × ℚ :=
  let totalJobs : ℚ := (j.outputs.length : ℚ)
  let completedJobs : ℚ := j.outputs.foldl completedStep 0
  (statusMap j.status, completedJobs / totalJobs * 100)

/-!  ## Elastic Transcoder adapter: provider construction -/

/-- `config.ElasticTranscoder`. -/
structure ETConfig where
  accessKeyID : GoString
  secretAccessKey : GoString
  pipelineID : GoString
  region : GoString
  deriving DecidableEq, Repr

/-- The provider object constructed by the factory (the AWS session and
client are external; the configuration is what the methods read). -/
structure AWSProvider where
  config : ETConfig
  deriving DecidableEq, Repr

/-- `elasticTranscoderProvider`: the registered factory.  Empty access
key, secret key or pipeline id yield `errAWSInvalidConfig` (a plain
`errors.New` value); otherwise the provider is built, defaulting the
region to us-east-1. -/
def elasticTranscoderProvider (cfg : ETConfig) : Except GoError AWSProvider :=
  if cfg.accessKeyID = [] ∨ cfg.secretAccessKey = [] ∨ cfg.pipelineID = [] then
    .error errAWSInvalidConfig
  else
    .ok { config :=
            { cfg with
              region := if cfg.region = [] then goStr "us-east-1" else cfg.region } }

/-!  ## Service layer: responses and the submission workflow
(service/transcode.go) -/

/-- The gizmo responses the embedded handlers produce
(`newInvalidJobResponse`, `newErrorResponse`, `newJobResponse`,
`newJobNotFoundResponse`, `newJobNotFoundProviderResponse`,
`newJobStatusResponse`). -/
inductive GizmoResponse where
  | invalidJob (e : GoError)
  | serverError (e : GoError)
  | jobCreated (jobID : GoString)
  | jobNotFound (e : GoError)
  | jobNotFoundProvider (e : GoError)
  | jobStatusPayload (s : ProviderJobStatus)
  deriving DecidableEq, Repr

/-- The message of a Go error value (`err.Error()`), used when wrapping
with `fmt.Errorf`. -/
def GoError.message : GoError → GoString
  | .errorString msg => msg
  | .invalidConfigError msg => msg
  | .jobNotFoundError msg => msg
  | .errPresetMapNotFound => goStr "preset not found in provider"
  | .dbErrPresetNotFound => goStr "preset not found"
  | .dbErrJobNotFound => goStr "job not found"

/-- The `fmt.Errorf("Error initializing provider %s for new job: %v %s",
...)` wrap in `newTranscodeJob`: a fresh plain error value. -/
def wrapInitError (providerName : GoString) (e : GoError) : GoError :=
  .errorString (goStr "Error initializing provider " ++ providerName ++
    goStr " for new job: " ++ e.message)

/-- The `fmt.Errorf("Error with provider %q: %s", ...)` wrap in
`newTranscodeJob`: a fresh plain error value. -/
def wrapProviderError (providerName : GoString) (e : GoError) : GoError :=
  .errorString (goStr "Error with provider " ++ providerName ++ goStr ": " ++
    e.message)

/-- The caller-supplied body of `POST /jobs`
(`newTranscodeJobInput.Payload`). -/
structure SubmissionInput where
  provider : GoString
  source : GoString
  presets : List GoString
  streamingParams : StreamingParams
  statusCallbackURL : GoString
  statusCallbackInterval : Nat
  completionCallbackURL : GoString
  deriving DecidableEq, Repr

/-- The preset-resolution loop of `newTranscodeJob` (lines 41-51): each
preset id is fetched from the store; `db.ErrPresetNotFound` is a client
error, any other store failure a server error, and the first failure
aborts. -/
def resolvePresets (getPreset : GoString → Except GoError DbPreset) :
    List GoString → Except GizmoResponse (List DbPreset)
  | [] => .ok []
  | id :: rest =>
    match getPreset id with
    | .error e =>
      if e = .dbErrPresetNotFound then .error (.invalidJob e)
      else .error (.serverError e)
    | .ok preset =>
      match resolvePresets getPreset rest with
      | .error r => .error r
      | .ok presets => .ok (preset :: presets)

/-- `(*TranscodingService).newTranscodeJob` (lines 26-89).  The
collaborators are passed explicitly: the parsed request body (`parse`,
whose failure yields an invalid-job response), the provider factory
applied to the service config (`factory`), the provider's `Transcode`
method (`transcodeOf`), the preset store (`getPreset`) and the job store
(`createJob`, returning the id assigned to the persisted job).  The
returned flag records whether a job record was persisted
(`s.db.CreateJob` invoked and succeeded).  The sentinel comparison
`err == provider.ErrPresetNotFound` on the `Transcode` result tests the
modelled `errPresetMapNotFound` condition (see `GoError`). -/
def newTranscodeJob {P : Type} (parse : Except GoError SubmissionInput)
    (factory : Except GoError P)
    (transcodeOf : P → TranscodeProfile → Except GoError ProviderJobStatus)
    (getPreset : GoString → Except GoError DbPreset)
    (createJob : Except GoError GoString) : GizmoResponse × Bool :=
  match parse with
  | .error e => (.invalidJob e, false)
  | .ok input =>
    match factory with
    | .error e =>
      if e.isInvalidConfigError then (.invalidJob (wrapInitError input.provider e), false)
      else (.serverError (wrapInitError input.provider e), false)
    | .ok providerObj =>
      match resolvePresets getPreset input.presets with
      | .error resp => (resp, false)
      | .ok presets =>
        let transcodeProfile : TranscodeProfile :=
          { sourceMedia := input.source
            presets := presets
            streamingParams := input.streamingParams
            outputs := [] }
        match transcodeOf providerObj transcodeProfile with
        | .error e =>
          if e = .errPresetMapNotFound then (.invalidJob e, false)
          else (.serverError (wrapProviderError input.provider e), false)
        | .ok _jobStatus =>
          match createJob with
          | .error e => (.serverError e, false)
          | .ok jobID => (.jobCreated jobID, true)

/-!  ## Service layer: the status workflow and the callback loop -/

/-- A run-time fault of the Go code (the embedded sources can only fault
by dereferencing a nil pointer). -/
inductive Panic where
  | nilPointerDereference
  deriving DecidableEq, Repr

/-- Dereference of a possibly-nil Go pointer. -/
def derefOpt {α : Type} : Option α → Except Panic α
  | some a => .ok a
  | none => .error .nilPointerDereference

/-- The quadruple returned by `getTranscodeJobByID`: nil-able job record,
nil-able status, nil-able provider object, nil-able error. -/
structure QueryResult where
  job : Option DbJob
  jobStatus : Option ProviderJobStatus
  providerObj : Option Unit
  err : Option GoError
  deriving DecidableEq, Repr

/-- `(*TranscodingService).getTranscodeJobByID` (lines 124-146), with the
store lookup, registry lookup, provider construction and provider status
query passed as explicit collaborator results. -/
def getTranscodeJobByID (dbGetJob : Except GoError DbJob)
    (factoryLookup : Except GoError Unit)
    (construct : Except GoError Unit)
    (queryStatus : Except GoError ProviderJobStatus) : QueryResult :=
  match dbGetJob with
  | .error e =>
    if e = .dbErrJobNotFound then ⟨none, none, none, some e⟩
    else ⟨none, none, none, some (.errorString (goStr "error retrieving job: " ++ e.message))⟩
  | .ok job =>
    match factoryLookup with
    | .error _ =>
      ⟨some job, none, none,
       some (.errorString (goStr "unknown provider " ++ job.providerName))⟩
    | .ok _ =>
      match construct with
      | .error e =>
        ⟨some job, none, none,
         some (.errorString (goStr "error initializing provider " ++
           job.providerName ++ goStr ": " ++ e.message))⟩
      | .ok _ =>
        match queryStatus with
        | .error e => ⟨some job, none, some (), some e⟩
        | .ok jobStatus =>
          ⟨some job, some { jobStatus with providerName := job.providerName },
           some (), none⟩

/-- `(*TranscodingService).getJobStatusResponse` (lines 107-122).  Inside
the error branch with a non-nil provider the job pointer is dereferenced
for the wrapping message, so a nil job there is a fault. -/
def getJobStatusResponse (q : QueryResult) : Except Panic GizmoResponse :=
  match q.err with
  | some e =>
    if e = .dbErrJobNotFound then .ok (.jobNotFound e)
    else
      match q.providerObj with
      | some _ =>
        match q.job with
        | none => .error .nilPointerDereference
        | some job =>
          let providerError : GoError :=
            .errorString (goStr "Error with provider " ++ job.providerName ++
              goStr " when trying to retrieve job id " ++ job.id ++ goStr ": " ++
              e.message)
          if e.isJobNotFoundError then .ok (.jobNotFoundProvider providerError)
          else .ok (.serverError providerError)
      | none => .ok (.serverError e)
  | none =>
    match q.jobStatus with
    | some jobStatus => .ok (.jobStatusPayload jobStatus)
    | none => .error .nilPointerDereference

/-- What one iteration of the `statusCallback` loop body (lines 150-169)
decides to do next. -/
inductive IterOutcome where
  | panicked
  | continueNoSleep
  | breakLoop
  | sleepContinue (interval : Nat)
  deriving DecidableEq, Repr

/-- The observable effects of one iteration of the `statusCallback` loop
body: its outcome plus how many status-callback and completion-callback
posts it performed. -/
structure IterEffects where
  outcome : IterOutcome
  statusPosts : Nat
  completionPosts : Nat
  deriving DecidableEq, Repr

/-- One iteration of the `statusCallback` loop body (lines 151-169),
given the query result for this iteration and the success of each
callback post the body may attempt.  Mirrors the source order: build the
response payload, post to the status-callback URL when present (a failed
post `continue`s, skipping the sleep), then test `jobStatus.Status`
— dereferencing the possibly-nil status pointer — and on a terminal
status post to the completion-callback URL when present (a failed post
`continue`s) before `break`ing; a non-terminal status sleeps for the
job's callback interval. -/
def statusCallbackIteration (q : QueryResult)
    (statusPostOk completionPostOk : Bool) : IterEffects :=
  match getJobStatusResponse q with
  | .error _ => ⟨.panicked, 0, 0⟩
  | .ok _payload =>
    match q.job with
    | none => ⟨.panicked, 0, 0⟩
    | some job =>
      let statusPosts := if job.statusCallbackURL ≠ [] then 1 else 0
      if job.statusCallbackURL ≠ [] ∧ ¬statusPostOk then
        ⟨.continueNoSleep, statusPosts, 0⟩
      else
        match q.jobStatus with
        | none => ⟨.panicked, statusPosts, 0⟩
        | some jobStatus =>
          if jobStatus.status ≠ .queued ∧ jobStatus.status ≠ .started then
            if job.completionCallbackURL ≠ [] then
              if completionPostOk then ⟨.breakLoop, statusPosts, 1⟩
              else ⟨.continueNoSleep, statusPosts, 1⟩
            else ⟨.breakLoop, statusPosts, 0⟩
          else ⟨.sleepContinue job.statusCallbackInterval, statusPosts, 0⟩

/-- The environment of one loop iteration: the collaborator results the
iteration observes (query result, post outcomes) and the wall-clock time
the iteration's queries and posts consume, in seconds. -/
structure EnvIter where
  query : QueryResult
  statusPostOk : Bool
  completionPostOk : Bool
  workDuration : Nat
  deriving DecidableEq, Repr

/-- The aggregate observable behaviour of a `statusCallback` run. -/
structure LoopResult where
  endTime : Nat
  statusPosts : Nat
  completionPosts : Nat
  panicked : Bool
  startTimes : List Nat
  deriving DecidableEq, Repr

/-- `maxJobTimeout = 8 * time.Hour`, in seconds. -/
def maxJobTimeoutSeconds : Nat := 8 * 3600

/-- The `statusCallback` loop (lines 150-170) over an explicit timeline:
time is measured in seconds from an arbitrary clock origin, `deadline`
is the context deadline (`ctx.Deadline()`), and each entry of `env`
supplies what the environment does during one iteration.  Before every
iteration the loop re-reads the clock and enters only while
`now.Before(deadline)`; the body never consults the context again, so an
iteration that has started runs to completion (including its sleep).
`startTimes` records the clock value at each executed iteration;
the run ends when the body breaks or panics, when the deadline check
fails, or when the supplied environment trace is exhausted. -/
def statusCallbackLoop (deadline : Nat) : List EnvIter → Nat → LoopResult
  | [], t => ⟨t, 0, 0, false, []⟩
  | e :: rest, t =>
    if t < deadline then
      let fx := statusCallbackIteration e.query e.statusPostOk e.completionPostOk
      match fx.outcome with
      | .panicked =>
        ⟨t + e.workDuration, fx.statusPosts, fx.completionPosts, true, [t]⟩
      | .breakLoop =>
        ⟨t + e.workDuration, fx.statusPosts, fx.completionPosts, false, [t]⟩
      | .continueNoSleep =>
        let r := statusCallbackLoop deadline rest (t + e.workDuration)
        ⟨r.endTime, fx.statusPosts + r.statusPosts,
         fx.completionPosts + r.completionPosts, r.panicked, t :: r.startTimes⟩
      | .sleepContinue interval =>
        let r := statusCallbackLoop deadline rest (t + e.workDuration + interval)
        ⟨r.endTime, fx.statusPosts + r.statusPosts,
         fx.completionPosts + r.completionPosts, r.panicked, t :: r.startTimes⟩
    else ⟨t, 0, 0, false, []⟩

/-!  ## Helper lemmas -/

/-- A list is a `isPrefixOf`-prefix of itself followed by anything. -/
theorem isPrefixOf_append_self (pat rest : GoString) :
    pat.isPrefixOf (pat ++ rest) = true := by
  induction pat with
  | nil => simp [List.isPrefixOf]
  | cons c cs ih => simp [List.isPrefixOf, ih]

/-- Removing the first occurrence of a non-empty pattern from a string it
starts with leaves the remainder. -/
theorem goReplaceFirstDrop_head (pat rest : GoString) (h : pat ≠ []) :
    goReplaceFirstDrop (pat ++ rest) pat = rest := by
  cases pat with
  | nil => exact absurd rfl h
  | cons c cs =>
    have hpre : (c :: cs).isPrefixOf (c :: (cs ++ rest)) = true :=
      isPrefixOf_append_self (c :: cs) rest
    simp only [goReplaceFirstDrop, List.append_eq, List.cons_append, hpre, if_true]
    exact List.drop_left (c :: cs) rest

/-- Splitting `bucket ++ "/" ++ key` once on the slash, when the bucket
contains no slash, yields the bucket (behind the accumulator) and the
key. -/
theorem goSplitN2Loop_bucket (key : GoString) :
    ∀ (bucket acc : GoString), '/' ∉ bucket →
      goSplitN2Loop '/' (bucket ++ '/' :: key) acc = [acc.reverse ++ bucket, key] := by
  intro bucket
  induction bucket with
  | nil => intro acc _; simp [goSplitN2Loop]
  | cons c cs ih =>
    intro acc hb
    have hc : ¬(c = '/') := by
      intro h
      exact hb (h ▸ List.mem_cons_self c cs)
    have hcs : '/' ∉ cs := fun h => hb (List.mem_cons_of_mem c h)
    simp only [List.cons_append, goSplitN2Loop, hc, if_false, List.append_eq]
    rw [ih (c :: acc) hcs]
    simp

/-!  ## Claim C2 -/

/-- Claim C2: `statusMap` sends Submitted to Queued, Progressing to
Started, Complete to Finished, Canceled to Canceled, and every other
backend string (the empty string included) to Failed; its result is
always one of the five closed enum values. -/
theorem statusMap_closed (s : GoString)
    (h1 : s ≠ goStr "Submitted") (h2 : s ≠ goStr "Progressing")
    (h3 : s ≠ goStr "Complete") (h4 : s ≠ goStr "Canceled") :
    statusMap (goStr "Submitted") = .queued ∧
    statusMap (goStr "Progressing") = .started ∧
    statusMap (goStr "Complete") = .finished ∧
    statusMap (goStr "Canceled") = .canceled ∧
    statusMap (goStr "") = .failed ∧
    statusMap s = .failed ∧
    ∀ t : GoString, statusMap t = .queued ∨ statusMap t = .started ∨
      statusMap t = .finished ∨ statusMap t = .failed ∨ statusMap t = .canceled := by
  refine ⟨rfl, rfl, rfl, rfl, rfl, ?_, ?_⟩
  · simp [statusMap, h1, h2, h3, h4]
  · intro t
    unfold statusMap
    split
    · exact Or.inl rfl
    · split
      · exact Or.inr (Or.inl rfl)
      · split
        · exact Or.inr (Or.inr (Or.inl rfl))
        · split
          · exact Or.inr (Or.inr (Or.inr (Or.inr rfl)))
          · exact Or.inr (Or.inr (Or.inr (Or.inl rfl)))

/-- Witness for C2 at the backend string "Error". -/
theorem statusMap_closed_witness :
    goStr "Error" ≠ goStr "Submitted" ∧ statusMap (goStr "Error") = .failed :=
  ⟨by decide,
   (statusMap_closed (goStr "Error") (by decide) (by decide) (by decide)
     (by decide)).2.2.2.2.2.1⟩

/-!  ## Claim C7 -/

/-- Claim C7: a source of the form `s3://<bucket>/<key>` normalizes to
the trailing object key, and a source that does not start with `s3://`
is returned unchanged. -/
theorem normalizeSource_spec (bucket key source : GoString)
    (hb : '/' ∉ bucket) (hs : ¬s3Scheme.isPrefixOf source = true) :
    normalizeSource (s3Scheme ++ bucket ++ '/' :: key) = key ∧
    normalizeSource source = source := by
  constructor
  · have hpre : s3Scheme.isPrefixOf (s3Scheme ++ (bucket ++ '/' :: key)) = true :=
      isPrefixOf_append_self s3Scheme (bucket ++ '/' :: key)
    have hscheme : s3Scheme ≠ [] := by decide
    rw [List.append_assoc]
    simp only [normalizeSource, goSplitN2, hpre, if_true,
      goReplaceFirstDrop_head s3Scheme (bucket ++ '/' :: key) hscheme]
    rw [goSplitN2Loop_bucket key bucket [] hb]
    rfl
  · simp [normalizeSource, hs]

/-- Witness for C7 at `s3://bucket/path/to/file.mp4` and the bare key
`path/to/file.mp4`. -/
theorem normalizeSource_spec_witness :
    '/' ∉ goStr "bucket" ∧
    normalizeSource (s3Scheme ++ goStr "bucket" ++ '/' :: goStr "path/to/file.mp4")
      = goStr "path/to/file.mp4" :=
  ⟨by decide,
   (normalizeSource_spec (goStr "bucket") (goStr "path/to/file.mp4")
     (goStr "path/to/file.mp4") (by decide) (by decide)).1⟩

/-!  ## Claim C10 -/

/-- Claim C10: `CreatePreset` sends container "ts" to the backend when
the generic preset's container is "m3u8", and passes any other container
through unchanged. -/
theorem createPreset_container (p : Preset) :
    (p.container = goStr "m3u8" → (buildCreatePresetInput p).container = goStr "ts") ∧
    (p.container ≠ goStr "m3u8" → (buildCreatePresetInput p).container = p.container) := by
  constructor <;> intro h <;> simp [buildCreatePresetInput, h]

/-- A concrete m3u8 preset for the C10 witness. -/
def presetM3u8 : Preset :=
  { name := goStr "hls-1080p"
    description := goStr "hls preset"
    container := goStr "m3u8"
    profile := goStr "Main"
    profileLevel := goStr "3.1"
    video := { codec := goStr "h264", bitrate := goStr "3500000",
               gopSize := goStr "90", gopMode := goStr "fixed",
               width := goStr "1920", height := [] }
    audio := { codec := goStr "aac", bitrate := goStr "128000" } }

/-- Witness for C10 at a concrete m3u8 preset. -/
theorem createPreset_container_witness :
    presetM3u8.container = goStr "m3u8" ∧
    (buildCreatePresetInput presetM3u8).container = goStr "ts" :=
  ⟨by decide, (createPreset_container presetM3u8).1 (by decide)⟩

/-!  ## Claim C6 -/

/-- A backend preset reader that always reports container "ts". -/
def readPresetTs : GoString → Except GoError ReadPresetOutput :=
  fun _ => .ok { preset := some { container := some (goStr "ts") } }

/-- The job record for the C6 evaluation. -/
def c6Job : DbJob :=
  { id := goStr "job1"
    providerName := etName
    providerJobID := []
    statusCallbackURL := []
    statusCallbackInterval := 0
    completionCallbackURL := [] }

/-- The transcode profile for the C6 evaluation: one output named
`test.ts` whose preset maps to the backend preset `preset-1`, with
segment duration 5 and playlist file name `playlist.m3u8`. -/
def c6Profile : TranscodeProfile :=
  { sourceMedia := goStr "dir/file.mov"
    presets := []
    streamingParams :=
      { segmentDuration := 5
        protocol := goStr "hls"
        playlistFileName := goStr "playlist.m3u8" }
    outputs := [{ fileName := goStr "test.ts"
                  preset := { providerMapping := [(etName, goStr "preset-1")] } }] }

/-- Claim C6 fails on the code: `outputKey` uses
`strings.TrimRight(fileName, filepath.Ext(fileName))`, which removes
trailing characters drawn from the extension's character *set* rather
than stripping the extension suffix.  For the adaptive output `test.ts`
(extension `.ts`, so cutset `.`, `t`, `s`) the code produces the backend
key `job1/te` — not `job1/test` as extension-stripping would — both in
the per-output key and in the playlist's output-key list of the request
`Transcode` assembles. -/
theorem outputKey_trimRight_bug :
    outputKey (goStr "job1") (goStr "test.ts") true = goStr "job1/te" ∧
    goStr "job1/te" ≠ goStr "job1/test" ∧
    awsCreateJobInput readPresetTs (goStr "pipeline-1") c6Job c6Profile =
      .ok { pipelineId := goStr "pipeline-1"
            inputKey := goStr "dir/file.mov"
            outputs := [{ presetId := goStr "preset-1"
                          key := goStr "job1/te"
                          segmentDuration := some (goStr "5") }]
            playlists := [{ format := goStr "HLSv3"
                            name := goStr "job1/playlist"
                            outputKeys := [goStr "job1/te"] }] } := by
  refine ⟨by decide, by decide, rfl⟩

/-!  ## Claim C9 -/

/-- An Elastic Transcoder configuration with an empty access key. -/
def c9Config : ETConfig :=
  { accessKeyID := []
    secretAccessKey := goStr "secret"
    pipelineID := goStr "pipeline-1"
    region := [] }

/-- A submission naming the elastictranscoder provider. -/
def c9Input : SubmissionInput :=
  { provider := etName
    source := goStr "s3://bucket/file.mp4"
    presets := []
    streamingParams := { segmentDuration := 0, protocol := [], playlistFileName := [] }
    statusCallbackURL := []
    statusCallbackInterval := 0
    completionCallbackURL := [] }

/-- Claim C9 fails on the code: with an empty access key the factory
`elasticTranscoderProvider` returns `errAWSInvalidConfig`, but that
value is built with `errors.New`, so the submission workflow's type
assertion `err.(provider.InvalidConfigError)` fails and the error is
surfaced as a *server* error response, not the claimed client
(invalid-job) response.  No job is persisted either way. -/
theorem invalidConfig_surfaced_as_server_error :
    elasticTranscoderProvider c9Config = .error errAWSInvalidConfig ∧
    errAWSInvalidConfig.isInvalidConfigError = false ∧
    newTranscodeJob (.ok c9Input) (elasticTranscoderProvider c9Config)
        (fun (_ : AWSProvider) (_ : TranscodeProfile) => .error (.errorString []))
        (fun _ => .error .dbErrPresetNotFound) (.error (.errorString []))
      = (.serverError (wrapInitError c9Input.provider errAWSInvalidConfig), false) := by
  refine ⟨rfl, rfl, rfl⟩

/-!  ## Claim C8 -/

/-- The claim-side completion predicate: an output counts as completed
once its individual mapped status is Finished, Canceled or Failed. -/
def isCompletedOutput (o : ETJobOutput) : Bool :=
  match statusMap o.status with
  | .finished => true
  | .canceled => true
  | .failed => true
  | _ => false

/-- The `completedJobs` accumulation equals a count of the completed
outputs. -/
theorem foldl_completedStep (l : List ETJobOutput) (acc : ℚ) :
    l.foldl completedStep acc = acc + (l.countP isCompletedOutput : ℚ) := by
  induction l generalizing acc with
  | nil => simp
  | cons o rest ih =>
    rw [List.foldl_cons, ih, List.countP_cons]
    cases h : statusMap o.status <;>
      simp [completedStep, isCompletedOutput, h] <;> ring

/-- The backend job for the C8 example: job-level status Complete, two
outputs both Complete. -/
def c8Job : ETReadJob :=
  { status := goStr "Complete"
    outputs := [{ status := goStr "Complete" }, { status := goStr "Complete" }] }

/-- Claim C8 (amended): the reported progress equals the number of
outputs whose individual mapped status is Finished, Canceled or Failed,
over the total number of outputs, times 100; and for a job whose
backend job-level status is Complete with 2 outputs both Complete, the
progress is 100 and the overall status is Finished.  (The overall status
comes from the job-level backend status, not from the outputs — see the
counterexample.) -/
theorem jobStatus_progress (j : ETReadJob) (_h : j.outputs ≠ []) :
    (jobStatusResult j).2
      = ((j.outputs.countP isCompletedOutput : ℚ) / (j.outputs.length : ℚ)) * 100 ∧
    jobStatusResult c8Job = (.finished, 100) := by
  constructor
  · simp [jobStatusResult, foldl_completedStep]
  · have hC : statusMap (goStr "Complete") = Status.finished := rfl
    simp only [jobStatusResult, c8Job, Prod.ext_iff, List.foldl_cons, List.foldl_nil,
      completedStep, hC, List.length_cons, List.length_nil]
    norm_num

/-- Witness for C8 at the two-output Complete job. -/
theorem jobStatus_progress_witness :
    c8Job.outputs ≠ [] ∧
    (jobStatusResult c8Job).2
      = ((c8Job.outputs.countP isCompletedOutput : ℚ) / (c8Job.outputs.length : ℚ)) * 100 :=
  ⟨by decide, (jobStatus_progress c8Job (by decide)).1⟩

/-- Claim C8 counterexample: a backend job whose two outputs are both
Complete but whose job-level status is Progressing has progress 100 and
overall status Started, not Finished — the overall status does not
follow from the output statuses alone, contrary to the claim's "in
particular" clause. -/
theorem jobStatus_status_counterexample :
    (jobStatusResult { status := goStr "Progressing"
                       outputs := [{ status := goStr "Complete" },
                                   { status := goStr "Complete" }] }).2 = 100 ∧
    (jobStatusResult { status := goStr "Progressing"
                       outputs := [{ status := goStr "Complete" },
                                   { status := goStr "Complete" }] }).1 = .started ∧
    Status.started ≠ Status.finished := by
  have hC : statusMap (goStr "Complete") = Status.finished := rfl
  refine ⟨?_, rfl, by decide⟩
  simp only [jobStatusResult, List.foldl_cons, List.foldl_nil, completedStep, hC,
    List.length_cons, List.length_nil]
  norm_num

/-!  ## Claim C1 -/

/-- An output whose preset mapping and backend preset read both succeed
with a well-formed (non-nil container) preset. -/
def readsOK (rp : GoString → Except GoError ReadPresetOutput) (o : TranscodeOutput) : Prop :=
  ∃ pid rpo pr c,
    lookupMapping o.preset.providerMapping etName = some pid ∧
    rp pid = .ok rpo ∧ rpo.preset = some pr ∧ pr.container = some c

/-- If every output before the first unmapped one resolves cleanly, the
output-construction loop aborts with `ErrPresetMapNotFound` at the
unmapped output. -/
theorem buildOutputs_missing_mapping
    (rp : GoString → Except GoError ReadPresetOutput) (jobID : GoString)
    (sd : Nat) (o : TranscodeOutput) (rest : List TranscodeOutput)
    (hmiss : lookupMapping o.preset.providerMapping etName = none) :
    ∀ pre : List TranscodeOutput, (∀ o' ∈ pre, readsOK rp o') →
      buildOutputs rp jobID sd (pre ++ o :: rest) = .error .errPresetMapNotFound := by
  intro pre
  induction pre with
  | nil =>
    intro _
    simp [buildOutputs, hmiss]
  | cons p ps ih =>
    intro hpre
    obtain ⟨pid, rpo, pr, c, h1, h2, h3, h4⟩ := hpre p (List.mem_cons_self p ps)
    have hrec := ih (fun o' ho' => hpre o' (List.mem_cons_of_mem p ho'))
    simp only [List.cons_append, buildOutputs, h1, h2, h3, h4, List.append_eq, hrec]

/-- If every preset id resolves in the store, the preset-resolution loop
succeeds. -/
theorem resolvePresets_ok (getPreset : GoString → Except GoError DbPreset) :
    ∀ ids : List GoString, (∀ id ∈ ids, ∃ p, getPreset id = .ok p) →
      ∃ ps, resolvePresets getPreset ids = .ok ps := by
  intro ids
  induction ids with
  | nil => exact fun _ => ⟨[], rfl⟩
  | cons id rest ih =>
    intro h
    obtain ⟨p, hp⟩ := h id (List.mem_cons_self id rest)
    obtain ⟨ps, hps⟩ := ih (fun i hi => h i (List.mem_cons_of_mem id hi))
    exact ⟨p :: ps, by simp [resolvePresets, hp, hps]⟩

/-- Claim C1: for a submission whose transcode profile contains an
output whose preset has no `ProviderMapping` entry for elastictranscoder
(every earlier output resolving cleanly), the adapter's `Transcode`
returns the `PresetMapNotFound` condition, and the submission workflow —
with parsing, provider construction and store preset resolution
succeeding — classifies it as a client-facing invalid-job response,
never a server error, without persisting any job.  (The service source
predates the outputs-bearing profile, so the provider function is
applied to the adapter-level profile it was given.) -/
theorem presetMapNotFound_client_error
    (rp : GoString → Except GoError ReadPresetOutput)
    (cj : CreateJobInput → Except GoError GoString)
    (pipelineID : GoString) (j : DbJob)
    (pre : List TranscodeOutput) (o : TranscodeOutput) (rest : List TranscodeOutput)
    (srcMedia : GoString) (sp : StreamingParams) (dbPresets : List DbPreset)
    (input : SubmissionInput) (getPreset : GoString → Except GoError DbPreset)
    (createJob : Except GoError GoString)
    (hpre : ∀ o' ∈ pre, readsOK rp o')
    (hmiss : lookupMapping o.preset.providerMapping etName = none)
    (hpresets : ∀ id ∈ input.presets, ∃ p, getPreset id = .ok p) :
    awsTranscode rp cj pipelineID j
        { sourceMedia := srcMedia, presets := dbPresets, streamingParams := sp
          outputs := pre ++ o :: rest }
      = .error .errPresetMapNotFound ∧
    newTranscodeJob (.ok input) (.ok ())
        (fun _ _ => awsTranscode rp cj pipelineID j
          { sourceMedia := srcMedia, presets := dbPresets, streamingParams := sp
            outputs := pre ++ o :: rest })
        getPreset createJob
      = (.invalidJob .errPresetMapNotFound, false) := by
  have htr : awsTranscode rp cj pipelineID j
      { sourceMedia := srcMedia, presets := dbPresets, streamingParams := sp
        outputs := pre ++ o :: rest }
      = .error .errPresetMapNotFound := by
    simp only [awsTranscode, awsCreateJobInput,
      buildOutputs_missing_mapping rp j.id sp.segmentDuration o rest hmiss pre hpre]
  refine ⟨htr, ?_⟩
  obtain ⟨ps, hps⟩ := resolvePresets_ok getPreset input.presets hpresets
  simp only [newTranscodeJob, hps, htr, if_pos rfl]
  simp

/-- The unmapped output for the C1 witness. -/
def c1Output : TranscodeOutput :=
  { fileName := goStr "out.mp4", preset := { providerMapping := [] } }

/-- The submission body for the C1 witness. -/
def c1Input : SubmissionInput :=
  { provider := etName
    source := goStr "s3://bucket/file.mp4"
    presets := [goStr "p1"]
    streamingParams := { segmentDuration := 0, protocol := [], playlistFileName := [] }
    statusCallbackURL := []
    statusCallbackInterval := 0
    completionCallbackURL := [] }

/-- Witness for C1: one output with an empty provider mapping. -/
theorem presetMapNotFound_client_error_witness :
    lookupMapping c1Output.preset.providerMapping etName = none ∧
    newTranscodeJob (.ok c1Input) (.ok ())
        (fun _ _ => awsTranscode (fun _ => .ok { preset := none })
          (fun _ => .ok []) (goStr "pipe") c6Job
          { sourceMedia := goStr "s.mp4", presets := [],
            streamingParams := { segmentDuration := 0, protocol := [], playlistFileName := [] }
            outputs := [c1Output] })
        (fun _ => .ok { providerMapping := [] }) (.ok (goStr "job-1"))
      = (.invalidJob .errPresetMapNotFound, false) :=
  ⟨rfl,
   (presetMapNotFound_client_error (fun _ => .ok { preset := none })
      (fun _ => .ok []) (goStr "pipe") c6Job [] c1Output []
      (goStr "s.mp4") { segmentDuration := 0, protocol := [], playlistFileName := [] } []
      c1Input (fun _ => .ok { providerMapping := [] }) (.ok (goStr "job-1"))
      (fun o' ho' => absurd ho' (List.not_mem_nil o'))
      rfl
      (fun _ _ => ⟨{ providerMapping := [] }, rfl⟩)).2⟩

/-!  ## Claim C3 -/

/-- The job for the C3 evaluation: no status-callback URL, a completion
URL (so the loop is spawned). -/
def c3Job : DbJob :=
  { id := goStr "job3"
    providerName := etName
    providerJobID := goStr "etid3"
    statusCallbackURL := []
    statusCallbackInterval := 1
    completionCallbackURL := goStr "http://callbacks.example.com/done" }

/-- The query result of an iteration whose provider status query fails:
job record found, provider constructed, `JobStatus` errors — so the
returned status pointer is nil. -/
def c3Query : QueryResult :=
  getTranscodeJobByID (.ok c3Job) (.ok ()) (.ok ())
    (.error (.errorString (goStr "backend unavailable")))

/-- Claim C3 fails on the code: when the status query errors the loop
body receives a nil `jobStatus` yet unconditionally evaluates
`jobStatus.Status`, so the iteration panics with a nil-pointer
dereference instead of continuing until the deadline. -/
theorem statusCallback_queryFailure_panics :
    c3Query.jobStatus = none ∧
    statusCallbackIteration c3Query true true = ⟨.panicked, 0, 0⟩ ∧
    (statusCallbackLoop maxJobTimeoutSeconds [⟨c3Query, true, true, 1⟩] 0).panicked = true := by
  refine ⟨rfl, rfl, rfl⟩

/-!  ## Claim C4 -/

/-- An upper bound on the wall-clock time one iteration of the loop can
consume on a given environment: its work plus the sleep interval its
job record prescribes. -/
def envIterBound (e : EnvIter) : Nat :=
  e.workDuration +
    (match e.query.job with
     | some j => j.statusCallbackInterval
     | none => 0)

/-- The largest per-iteration bound over an environment trace. -/
def maxEnvIterBound : List EnvIter → Nat
  | [] => 0
  | e :: rest => max (envIterBound e) (maxEnvIterBound rest)

/-- The head iteration's bound is below the trace maximum. -/
theorem envIterBound_le_head (e : EnvIter) (rest : List EnvIter) :
    envIterBound e ≤ maxEnvIterBound (e :: rest) := le_max_left _ _

/-- The tail maximum is below the trace maximum. -/
theorem maxEnvIterBound_le_tail (e : EnvIter) (rest : List EnvIter) :
    maxEnvIterBound rest ≤ maxEnvIterBound (e :: rest) := le_max_right _ _

/-- Inversion for the sleeping outcome: the loop body only sleeps for
the interval prescribed by the job record its query returned. -/
theorem iteration_sleep_interval (q : QueryResult) (s c : Bool) (i : Nat)
    (h : (statusCallbackIteration q s c).outcome = .sleepContinue i) :
    ∃ j, q.job = some j ∧ i = j.statusCallbackInterval := by
  obtain ⟨qjob, qjs, qpo, qerr⟩ := q
  cases hg : getJobStatusResponse ⟨qjob, qjs, qpo, qerr⟩ with
  | error p => simp [statusCallbackIteration, hg] at h
  | ok payload =>
    cases qjob with
    | none => simp [statusCallbackIteration, hg] at h
    | some job =>
      refine ⟨job, rfl, ?_⟩
      simp only [statusCallbackIteration, hg] at h
      split at h
      · simp at h
      · split at h
        · simp at h
        · split at h
          · split at h
            · split at h
              · simp at h
              · simp at h
            · simp at h
          · simp at h
            exact h.symm

/-- Claim C4 (amended): the loop re-checks the clock only at the top of
each iteration, so no iteration ever *starts* at or after the deadline,
and the run ends no later than the deadline plus one iteration's
duration (work plus sleep); but an iteration in flight is not cancelled
at the deadline (see the counterexample for an overrun). -/
theorem loop_never_starts_after_deadline (deadline : Nat) (env : List EnvIter) (t0 : Nat) :
    (∀ s ∈ (statusCallbackLoop deadline env t0).startTimes, s < deadline) ∧
    (statusCallbackLoop deadline env t0).endTime ≤ max t0 (deadline + maxEnvIterBound env) := by
  induction env generalizing t0 with
  | nil =>
    refine ⟨?_, le_max_left _ _⟩
    intro s hs
    simp [statusCallbackLoop] at hs
  | cons e rest ih =>
    by_cases ht : t0 < deadline
    · have hwork : e.workDuration ≤ envIterBound e := Nat.le_add_right _ _
      have hhead : envIterBound e ≤ maxEnvIterBound (e :: rest) := envIterBound_le_head e rest
      have htail : maxEnvIterBound rest ≤ maxEnvIterBound (e :: rest) :=
        maxEnvIterBound_le_tail e rest
      cases ho : (statusCallbackIteration e.query e.statusPostOk e.completionPostOk).outcome with
      | panicked =>
        simp only [statusCallbackLoop, if_pos ht, ho]
        refine ⟨?_, ?_⟩
        · intro s hs
          simp only [List.mem_singleton] at hs
          omega
        · exact le_trans (by omega) (le_max_right _ _)
      | continueNoSleep =>
        simp only [statusCallbackLoop, if_pos ht, ho]
        obtain ⟨ihs, ihe⟩ := ih (t0 + e.workDuration)
        refine ⟨?_, ?_⟩
        · intro s hs
          rcases List.mem_cons.mp hs with hs | hs
          · omega
          · exact ihs s hs
        · refine le_trans ihe (le_trans (max_le (by omega) (by omega)) (le_max_right _ _))
      | breakLoop =>
        simp only [statusCallbackLoop, if_pos ht, ho]
        refine ⟨?_, ?_⟩
        · intro s hs
          simp only [List.mem_singleton] at hs
          omega
        · exact le_trans (by omega) (le_max_right _ _)
      | sleepContinue i =>
        obtain ⟨j, hj, hi⟩ := iteration_sleep_interval _ _ _ i ho
        have hadv : e.workDuration + j.statusCallbackInterval = envIterBound e := by
          simp [envIterBound, hj]
        simp only [statusCallbackLoop, if_pos ht, ho]
        obtain ⟨ihs, ihe⟩ := ih (t0 + e.workDuration + i)
        refine ⟨?_, ?_⟩
        · intro s hs
          rcases List.mem_cons.mp hs with hs | hs
          · omega
          · exact ihs s hs
        · refine le_trans ihe (le_trans (max_le (by omega) (by omega)) (le_max_right _ _))
    · simp only [statusCallbackLoop, if_neg ht]
      refine ⟨?_, le_max_left _ _⟩
      intro s hs
      simp at hs

/-- The job for the C4 counterexample: a status-callback URL and a large
(caller-supplied, in seconds) polling interval. -/
def c4Job : DbJob :=
  { id := goStr "job4"
    providerName := etName
    providerJobID := goStr "etid4"
    statusCallbackURL := goStr "http://callbacks.example.com/status"
    statusCallbackInterval := 28799
    completionCallbackURL := [] }

/-- A successful query observing the job still Queued. -/
def c4Env : EnvIter :=
  { query :=
      getTranscodeJobByID (.ok c4Job) (.ok ()) (.ok ())
        (.ok { providerName := [], providerJobID := goStr "etid4",
               status := .queued, progress := 0 })
    statusPostOk := true
    completionPostOk := true
    workDuration := 0 }

/-- Claim C4 counterexample: with the 8-hour deadline (28800 s) and a
job polling every 28799 s, a run starting at the same clock origin as
the deadline window executes a second iteration at 28799 (still before
the deadline) and only returns at 57598 — the loop runs 57598 s,
almost twice the 8-hour ceiling, because nothing cancels an iteration
already in flight. -/
theorem loop_overruns_deadline :
    maxJobTimeoutSeconds = 28800 ∧
    (statusCallbackLoop maxJobTimeoutSeconds [c4Env, c4Env] 0).startTimes = [0, 28799] ∧
    (statusCallbackLoop maxJobTimeoutSeconds [c4Env, c4Env] 0).endTime = 57598 ∧
    57598 > maxJobTimeoutSeconds := by
  refine ⟨by decide, by decide, by decide, by decide⟩

/-- Witness for C4 at a concrete single-iteration run. -/
theorem loop_never_starts_after_deadline_witness :
    (0 : Nat) ∈ (statusCallbackLoop maxJobTimeoutSeconds [c4Env] 0).startTimes ∧
    (0 : Nat) < maxJobTimeoutSeconds :=
  ⟨by decide,
   (loop_never_starts_after_deadline maxJobTimeoutSeconds [c4Env] 0).1 0 (by decide)⟩

/-!  ## Claim C5 -/

/-- A fully successful status query observing status `s` for job `J`
(store, registry, construction and provider query all succeed). -/
def goodQuery (J : DbJob) (s : Status) : QueryResult :=
  getTranscodeJobByID (.ok J) (.ok ()) (.ok ())
    (.ok { providerName := [], providerJobID := J.providerJobID,
           status := s, progress := 0 })

/-- One loop-iteration environment in which the query succeeds with
status `p.1`, both posts succeed, and the external work takes `p.2`
seconds. -/
def mkEnv (J : DbJob) (p : Status × Nat) : EnvIter :=
  { query := goodQuery J p.1
    statusPostOk := true
    completionPostOk := true
    workDuration := p.2 }

/-- Projection of `mkEnv`: the query. -/
theorem mkEnv_query (J : DbJob) (p : Status × Nat) :
    (mkEnv J p).query = goodQuery J p.1 := rfl

/-- Projection of `mkEnv`: the status post succeeds. -/
theorem mkEnv_statusPostOk (J : DbJob) (p : Status × Nat) :
    (mkEnv J p).statusPostOk = true := rfl

/-- Projection of `mkEnv`: the completion post succeeds. -/
theorem mkEnv_completionPostOk (J : DbJob) (p : Status × Nat) :
    (mkEnv J p).completionPostOk = true := rfl

/-- Projection of `mkEnv`: the work duration. -/
theorem mkEnv_workDuration (J : DbJob) (p : Status × Nat) :
    (mkEnv J p).workDuration = p.2 := rfl

/-- Total time consumed by the non-terminal polls: per poll, its work
plus the job's sleep interval. -/
def runTime (J : DbJob) (front : List (Status × Nat)) : Nat :=
  front.foldr (fun p acc => p.2 + J.statusCallbackInterval + acc) 0

/-- The clock values at which the successive iterations start. -/
def startTimesOf (J : DbJob) : Nat → List (Status × Nat) → List Nat
  | t0, [] => [t0]
  | t0, p :: rest => t0 :: startTimesOf J (t0 + p.2 + J.statusCallbackInterval) rest

/-- On a successful non-terminal observation with a status-callback URL
and a successful post, the body posts the status once and sleeps the
job's interval. -/
theorem iteration_goodQuery_nonterminal (J : DbJob) (s : Status)
    (hURL : J.statusCallbackURL ≠ []) (hs : s = .queued ∨ s = .started) :
    statusCallbackIteration (goodQuery J s) true true
      = ⟨.sleepContinue J.statusCallbackInterval, 1, 0⟩ := by
  have hq : goodQuery J s
      = ⟨some J,
         some { providerName := J.providerName, providerJobID := J.providerJobID,
                status := s, progress := 0 },
         some (), none⟩ := rfl
  rw [hq]
  rcases hs with h | h <;> subst h <;>
    simp [statusCallbackIteration, getJobStatusResponse, hURL]

/-- On a successful terminal observation with a status-callback URL and
successful posts, the body posts the status once, posts the completion
callback exactly when its URL is present, and breaks. -/
theorem iteration_goodQuery_terminal (J : DbJob) (s : Status)
    (hURL : J.statusCallbackURL ≠ [])
    (hs : s = .finished ∨ s = .failed ∨ s = .canceled) :
    statusCallbackIteration (goodQuery J s) true true
      = ⟨.breakLoop, 1, if J.completionCallbackURL ≠ [] then 1 else 0⟩ := by
  have hq : goodQuery J s
      = ⟨some J,
         some { providerName := J.providerName, providerJobID := J.providerJobID,
                status := s, progress := 0 },
         some (), none⟩ := rfl
  rw [hq]
  rcases hs with h | h | h <;> subst h <;>
    by_cases hc : J.completionCallbackURL ≠ [] <;>
      simp [statusCallbackIteration, getJobStatusResponse, hURL, hc]

/-- Claim C5: in a run whose queries all succeed, whose posts all
succeed, whose polled statuses are non-terminal until a final terminal
one, and whose deadline is not hit, the loop posts the status callback
once per poll, posts the completion callback exactly once when its URL
is present, never panics, and stops after exactly those iterations. -/
theorem statusCallback_terminal_run (J : DbJob) (deadline : Nat)
    (lastS : Status) (lastW : Nat)
    (hURL : J.statusCallbackURL ≠ [])
    (hlast : lastS = .finished ∨ lastS = .failed ∨ lastS = .canceled) :
    ∀ front : List (Status × Nat), (∀ p ∈ front, p.1 = .queued ∨ p.1 = .started) →
    ∀ t0 : Nat, t0 + runTime J front + lastW < deadline →
      statusCallbackLoop deadline (front.map (mkEnv J) ++ [mkEnv J (lastS, lastW)]) t0
        = { endTime := t0 + runTime J front + lastW
            statusPosts := front.length + 1
            completionPosts := if J.completionCallbackURL ≠ [] then 1 else 0
            panicked := false
            startTimes := startTimesOf J t0 front } := by
  intro front
  induction front with
  | nil =>
    intro _ t0 htime
    have hrt : runTime J [] = 0 := rfl
    rw [hrt] at htime
    have ht : t0 < deadline := by omega
    simp only [List.map_nil, List.nil_append, statusCallbackLoop, if_pos ht,
      mkEnv_query, mkEnv_statusPostOk, mkEnv_completionPostOk, mkEnv_workDuration,
      iteration_goodQuery_terminal J lastS hURL hlast, List.length_nil]
    congr 1
  | cons p ps ih =>
    intro hfront t0 htime
    have hp : p.1 = .queued ∨ p.1 = .started := hfront p (List.mem_cons_self p ps)
    have hrt : runTime J (p :: ps) = p.2 + J.statusCallbackInterval + runTime J ps := rfl
    rw [hrt] at htime
    have ht : t0 < deadline := by omega
    simp only [List.map_cons, List.cons_append, statusCallbackLoop, if_pos ht,
      mkEnv_query, mkEnv_statusPostOk, mkEnv_completionPostOk, mkEnv_workDuration,
      List.append_eq, iteration_goodQuery_nonterminal J p.1 hURL hp]
    rw [ih (fun q hq => hfront q (List.mem_cons_of_mem p hq))
      (t0 + p.2 + J.statusCallbackInterval) (by omega)]
    rw [List.length_cons]
    dsimp only
    congr 1 <;> first | rfl | omega

/-- The job for the C5 witness: both callback URLs, interval one
second. -/
def c5Job : DbJob :=
  { id := goStr "job5"
    providerName := etName
    providerJobID := goStr "etid5"
    statusCallbackURL := goStr "http://callbacks.example.com/status"
    statusCallbackInterval := 1
    completionCallbackURL := goStr "http://callbacks.example.com/done" }

/-- Witness for C5 at the spec's example: statuses
Queued → Started → Finished over three polls, both URLs set, interval
one second — three status posts, one completion post, then the loop
stops well before the 8-hour deadline. -/
theorem statusCallback_terminal_run_witness :
    c5Job.statusCallbackURL ≠ [] ∧
    statusCallbackLoop maxJobTimeoutSeconds
        ([((.queued : Status), 0), ((.started : Status), 0)].map (mkEnv c5Job) ++
          [mkEnv c5Job (.finished, 0)]) 0
      = { endTime := 2, statusPosts := 3, completionPosts := 1,
          panicked := false, startTimes := [0, 1, 2] } :=
  ⟨by decide,
   statusCallback_terminal_run c5Job maxJobTimeoutSeconds .finished 0
     (by decide) (Or.inl rfl) [((.queued : Status), 0), ((.started : Status), 0)]
     (by decide) 0 (by decide)⟩
